import Mathlib

/-!
Verification of the shopping-list-sync synchronization engine.

The definitions below are a shallow embedding of the Python sources
`state.py`, `sync.py` and `organizer.py`.  Remote services (Todoist, the
classification service) are modelled as oracles: each remote call's result
is a parameter of type `Except String _` (an exception raised by the call
is the `.error` case).  Python dictionaries are embedded as association
lists in insertion order, where the first binding of a key wins.
-/

namespace ShoppingListSync

/-- One remote task as the Todoist client returns it.  Mirrors the fields
of `todoist_api_python.Task` that the sources read: `id`, `content`,
`section_id`, `parent_id`, `is_completed`.  Python optional-string fields
are `Option String`; their Python truthiness (where both `None` and the
empty string are falsy) is `optTruthy` below. -/
structure Task where
  id : String
  content : String
  section_id : Option String
  parent_id : Option String
  is_completed : Bool
deriving DecidableEq, Repr

/-- Python truthiness of an optional string: `None` and `""` are falsy. -/
def optTruthy : Option String → Bool
  | none => false
  | some s => !(s == "")

/-- One entry of `SyncState.tasks_state` (state.py line 21 and
sync.py `_get_current_tasks_state`, lines 92-99): the snapshot
`{content, section_id, is_completed}` kept per task id. -/
structure TaskSnapshot where
  content : String
  section_id : Option String
  is_completed : Bool
deriving DecidableEq, Repr

/-- Python dict assignment `d[k] = v` on an association list: replace the
first binding of `k` in place, otherwise append at the end (Python dicts
preserve insertion order). -/
def dictInsert {β : Type} (k : String) (v : β) : List (String × β) → List (String × β)
  | [] => [(k, v)]
  | (k', v') :: rest => if k' = k then (k', v) :: rest else (k', v') :: dictInsert k v rest

/-- Python `==` on two dicts compares the key-to-value mappings, with key
order irrelevant.  On association lists (first binding of a key wins) this
is agreement of `List.lookup` on every key of either operand. -/
def pyDictEq (a b : List (String × TaskSnapshot)) : Bool :=
  (a.map Prod.fst).all (fun k => a.lookup k == b.lookup k) &&
  (b.map Prod.fst).all (fun k => b.lookup k == a.lookup k)

/-- `SyncState.has_changed` (state.py lines 65-74):
`return current_state != self.tasks_state`.  The first argument is the
stored `self.tasks_state`, the second the candidate `current_state`. -/
def has_changed (tasks_state current_state : List (String × TaskSnapshot)) : Bool :=
  !(pyDictEq current_state tasks_state)

/-- Boolean prefix test on character lists (used to embed Python's
substring operator `in`). -/
def isPrefixB : List Char → List Char → Bool
  | [], _ => true
  | _ :: _, [] => false
  | a :: as, b :: bs => a == b && isPrefixB as bs

/-- Boolean contiguous-substring test on character lists. -/
def isInfixB (needle : List Char) : List Char → Bool
  | [] => isPrefixB needle []
  | b :: bs => isPrefixB needle (b :: bs) || isInfixB needle bs

/-- Python `needle in hay` on strings (case sensitive). -/
def substrExact (needle hay : String) : Bool :=
  isInfixB needle.toList hay.toList

/-- Python `str.lower()`, character by character. -/
def lowerChars (cs : List Char) : List Char :=
  cs.map Char.toLower

/-- Python whitespace for `str.strip()`. -/
def isPyWS (c : Char) : Bool :=
  c == ' ' || c == '\t' || c == '\n' || c == '\x0d' || c == '\x0b' || c == '\x0c'

/-- Python `str.strip()`: drop leading and trailing whitespace. -/
def stripChars (cs : List Char) : List Char :=
  ((cs.dropWhile isPyWS).reverse.dropWhile isPyWS).reverse

/-- Case-insensitive substring test `item.lower() in task.content.lower()`
(organizer.py line 204). -/
def substrMatch (needle hay : String) : Bool :=
  isInfixB (lowerChars needle.toList) (lowerChars hay.toList)

/-- Normalisation used for duplicate detection (organizer.py lines 221 and
269): `content.lower().strip()`. -/
def normalizeContent (s : String) : String :=
  String.mk (stripChars (lowerChars s.toList))

/-- `get_existing_items` (organizer.py lines 216-224): the normalised
contents of the tasks that already have a section or a parent. -/
def get_existing_items (tasks : List Task) : List String :=
  (tasks.filter (fun t => optTruthy t.section_id || optTruthy t.parent_id)).map
    (fun t => normalizeContent t.content)

/-- Result of the duplicate-filtering loop of `organize_shopping_list`
(organizer.py lines 266-278): the surviving unique items, the ids passed to
`delete_task` (in order), and the ids whose delete call succeeded. -/
structure DedupeResult where
  unique : List Task
  deleteAttempts : List String
  deleted : List String
deriving DecidableEq, Repr

/-- The duplicate-filtering loop of `organize_shopping_list` (organizer.py
lines 266-278).  `existing` is `get_existing_items`'s output; `deleteOk`
tells, per task id, whether the `delete_task` call succeeds (a failure is
caught and logged, and the loop continues either way; the item is dropped
from further processing in both cases). -/
def dedupeLoop (existing : List String) (deleteOk : String → Bool) : List Task → DedupeResult
  | [] => ⟨[], [], []⟩
  | item :: rest =>
    let r := dedupeLoop existing deleteOk rest
    if normalizeContent item.content ∈ existing then
      ⟨r.unique, item.id :: r.deleteAttempts,
        if deleteOk item.id then item.id :: r.deleted else r.deleted⟩
    else
      ⟨item :: r.unique, r.deleteAttempts, r.deleted⟩

/-- One category's configuration from `categories.yaml` (config.py
`load_categories`): `{emoji, keywords}` keyed by the category key. -/
structure CategoryConfig where
  emoji : String
  keywords : List String
deriving DecidableEq, Repr

/-- Canonicalisation of a response category name back to a config key
(organizer.py line 199): `category_name.lower().replace(' ', '_')` (the
pattern is the single character ' ', so the replacement is charwise). -/
def canonKey (s : String) : String :=
  String.mk ((lowerChars s.toList).map (fun c => if c == ' ' then '_' else c))

/-- The tasks matching one response category's item-name list
(organizer.py lines 202-205): the tasks whose content contains some listed
name as a case-insensitive substring. -/
def matchingTasks (items : List Task) (itemNames : List String) : List Task :=
  items.filter (fun t => itemNames.any (fun n => substrMatch n t.content))

/-- The reconciliation loop of `categorize_items` (organizer.py lines
196-208): for each top-level response entry, canonicalise the key and
collect the matching tasks; entries with no match are skipped; the result
dict is built by Python dict assignment. -/
def reconcile (items : List Task) (resp : List (String × List String)) :
    List (String × List Task) :=
  resp.foldl
    (fun acc p =>
      let mt := matchingTasks items p.2
      if mt.isEmpty then acc else dictInsert (canonKey p.1) mt acc)
    []

/-- Decidable equality on `Except`, needed so that theorems about the
embedded fallible operations can be settled on concrete inputs. -/
def exceptDecEq {ε α : Type} [DecidableEq ε] [DecidableEq α] : DecidableEq (Except ε α)
  | .error e, .error f =>
    match decEq e f with
    | isTrue h => isTrue (by rw [h])
    | isFalse h => isFalse (fun hh => h (Except.error.inj hh))
  | .error _, .ok _ => isFalse (fun hh => Except.noConfusion hh)
  | .ok _, .error _ => isFalse (fun hh => Except.noConfusion hh)
  | .ok a, .ok b =>
    match decEq a b with
    | isTrue h => isTrue (by rw [h])
    | isFalse h => isFalse (fun hh => h (Except.ok.inj hh))

instance {ε α : Type} [DecidableEq ε] [DecidableEq α] : DecidableEq (Except ε α) :=
  exceptDecEq

/-- Output of `categorize_items`: the returned mapping (or the propagated
exception), plus whether the classification service was called. -/
structure CategorizeOutput where
  result : Except String (List (String × List Task))
  calledClassifier : Bool
deriving DecidableEq, Repr

/-- `categorize_items` (organizer.py lines 125-213).  `classify` is the
oracle for the OpenAI call combined with the parse of its payload
(lines 181-192): an exception from the call, or a payload that is not a
well-formed mapping, is the `.error` case, which the function logs and
re-raises (lines 211-213).  The `categoriesConfig` argument only shapes
the request prompt (lines 143-178), which the oracle abstracts, so it does
not appear in the result.  An empty `items` list returns the empty dict
before any call (lines 140-141). -/
def categorize_items (classify : Except String (List (String × List String)))
    (_categoriesConfig : List (String × CategoryConfig)) (items : List Task) :
    CategorizeOutput :=
  if items.isEmpty then ⟨.ok [], false⟩
  else
    match classify with
    | .error e => ⟨.error e, true⟩
    | .ok resp => ⟨.ok (reconcile items resp), true⟩

/-- The `update_task(task_id=item.id, section_id=section_id)` calls issued
by one iteration of the apply loop of `organize_shopping_list`
(organizer.py lines 302-312): nothing when the category's item list is
empty or its key has no section; otherwise one call per item.  The calls
are issued whether or not they succeed (a failure only adds the
recreate-and-delete fallback, lines 314-333, which never assigns the
original task id to a further section), so this list does not depend on
the call outcomes. -/
def applyEntry (sectionDict : List (String × String)) (p : String × List Task) :
    List (String × String) :=
  if p.2.isEmpty then []
  else
    match sectionDict.lookup p.1 with
    | none => []
    | some sid => p.2.map (fun t => (t.id, sid))

/-- All `update_task` calls of the apply loop of `organize_shopping_list`
(organizer.py lines 301-315), in order: each pair is
(task id, destination section id). -/
def applyMoves (sectionDict : List (String × String)) :
    List (String × List Task) → List (String × String)
  | [] => []
  | p :: rest => applyEntry sectionDict p ++ applyMoves sectionDict rest

/-- The exception classes relevant to the retry decorator of sync.py.
`httpError` and `connectionError` embed `requests.exceptions.HTTPError`
and `requests.exceptions.ConnectionError`; validation, not-found and other
errors (modelled per the collaborator contract of the spec, since the
Todoist client itself is an external collaborator) are distinct classes. -/
inductive ApiError
  | httpError (msg : String)
  | connectionError (msg : String)
  | validationError (msg : String)
  | notFoundError (msg : String)
  | otherError (msg : String)
deriving DecidableEq, Repr

/-- The `retry_if_exception_type((HTTPError, ConnectionError))` predicate of
`create_todoist_retry_decorator` (sync.py lines 30-33). -/
def shouldRetryTodoist : ApiError → Bool
  | .httpError _ => true
  | .connectionError _ => true
  | .validationError _ => false
  | .notFoundError _ => false
  | .otherError _ => false

/-- Tenacity's retry driver with `reraise=True`: run the attempt numbered
`attempt`; on success return; on a failure that the predicate accepts and
with retries left, sleep (backoff, irrelevant to the result) and try the
next attempt; otherwise re-raise the exception unchanged.  `fuel` is the
number of retries still allowed, so `fuel = maxAttempts - attempt`. -/
def retryExec {ε α : Type} (shouldRetry : ε → Bool) (behavior : Nat → Except ε α)
    (attempt : Nat) : Nat → Except ε α
  | 0 => behavior attempt
  | n + 1 =>
    match behavior attempt with
    | .ok v => .ok v
    | .error e => if shouldRetry e then retryExec shouldRetry behavior (attempt + 1) n
                  else .error e

/-- A remote call wrapped by `create_todoist_retry_decorator()` (sync.py
lines 27-38): `stop_after_attempt(3)` allows attempts 1, 2 and 3, so two
retries of the first attempt.  `behavior i` is the outcome of the i-th
attempt of the wrapped call. -/
def todoistRetryCall {α : Type} (behavior : Nat → Except ApiError α) : Except ApiError α :=
  retryExec shouldRetryTodoist behavior 1 2

/-- Python `PurePath.with_suffix` restricted to string paths, as used at
state.py line 48: replace the extension of the last path component (the
part from its last dot, when that dot is not its first character),
otherwise append the suffix. -/
def dropExt (cs : List Char) : List Char :=
  match cs.reverse.dropWhile (fun c => !(c == '.')) with
  | [] => cs
  | _ :: rest => if rest.isEmpty then cs else rest.reverse

/-- `path.with_suffix(suffix)` on a slash-separated string path. -/
def with_suffix (path suffix : String) : String :=
  let revd := path.toList.reverse
  let comp := (revd.takeWhile (fun c => !(c == '/'))).reverse
  let dir := (revd.dropWhile (fun c => !(c == '/'))).reverse
  String.mk (dir ++ dropExt comp ++ suffix.toList)

/-- The temporary path of `SyncState.save` (state.py line 48):
`self.state_file.with_suffix('.tmp')`. -/
def tmpPathOf (statePath : String) : String :=
  with_suffix statePath ".tmp"

/-- Remove every binding of a path from the file system (an association
list from path to file content). -/
def fsErase (k : String) (fs : List (String × String)) : List (String × String) :=
  fs.filter (fun p => !(p.1 == k))

/-- `Path.replace` (state.py line 58): atomically rename `src` over `dst`;
`dst` receives `src`'s content and `src` disappears. -/
def fsRename (src dst : String) (fs : List (String × String)) : List (String × String) :=
  match fs.lookup src with
  | none => fs
  | some c => dictInsert dst c (fsErase src fs)

/-- The file system as seen if `SyncState.save` (state.py lines 41-63) is
interrupted after (part of) the write of the temporary file (line 54-55)
but before the rename (line 58): only the temporary path holds new
content, which may be a partial serialisation. -/
def saveAfterWriteFS (fs : List (String × String)) (statePath partialContent : String) :
    List (String × String) :=
  dictInsert (tmpPathOf statePath) partialContent fs

/-- `SyncState.save` run to completion (state.py lines 41-63): write the
serialised state to the temporary path, then rename it over the target.
If the write fails, the handler at lines 61-63 logs and re-raises, leaving
the exception with the caller. -/
def save (fs : List (String × String)) (statePath payload : String) (writeOk : Bool) :
    Except String (List (String × String)) :=
  if writeOk then
    .ok (fsRename (tmpPathOf statePath) statePath
      (dictInsert (tmpPathOf statePath) payload fs))
  else
    .error "write failed"

/-- The remote Todoist calls the embedded functions can issue (the fields
of each call that the sources pass; `add_task`'s priority and due date
carry no information for any claim and are omitted). -/
inductive RemoteCall
  | getTasks (projectId : String)
  | addTask (content : String) (projectId : String) (sectionId : Option String)
  | deleteTask (taskId : String)
  | updateTask (taskId : String) (sectionId : String)
deriving DecidableEq, Repr

/-- Environment of `create_error_task` (organizer.py lines 13-50): the two
settings it reads and the outcome of each remote call it may perform. -/
structure ErrorTaskEnv where
  errorHandlingMode : String
  systemProjectId : Option String
  now : String
  getTasksResult : Except String (List Task)
  addTaskResult : Except String Unit

/-- The content of the marker task (organizer.py line 40). -/
def errorTaskContent (now errorMessage : String) : String :=
  "ðŸ”§ Shopping List Sync Error" ++ "\n\nError occurred at " ++ now ++ "\n\n" ++ errorMessage

/-- `create_error_task` (organizer.py lines 13-50), returning the list of
remote calls it performed.  It returns early with no call when the error
handling mode is not 'task' or 'both', or when the system project id is
not configured (Python truthiness); the whole remote interaction sits in a
`try` whose handler (lines 49-50) only logs, so no branch produces
`.error`. -/
def create_error_task (env : ErrorTaskEnv) (errorMessage : String) :
    Except String (List RemoteCall) :=
  if !(env.errorHandlingMode == "task" || env.errorHandlingMode == "both") then
    .ok []
  else if !(optTruthy env.systemProjectId) then
    .ok []
  else
    let pid := env.systemProjectId.getD ""
    match env.getTasksResult with
    | .error _ => .ok [.getTasks pid]
    | .ok tasks =>
      match tasks.find? (fun t =>
          substrExact "Shopping List Sync Error" t.content && !t.is_completed) with
      | some _ => .ok [.getTasks pid]
      | none =>
        match env.addTaskResult with
        | .error _ => .ok [.getTasks pid, .addTask (errorTaskContent env.now errorMessage) pid none]
        | .ok _ => .ok [.getTasks pid, .addTask (errorTaskContent env.now errorMessage) pid none]

/-- Environment of `organize_shopping_list` (organizer.py lines 227-343):
the outcome of each fallible step, in program order.  `setupResources`
abstracts `setup_todoist_resources` (its value is the `(project_id,
section_dict)` pair); the two `get_tasks` calls (inside
`get_unlabeled_items` and `get_existing_items`) are separate oracles. -/
structure OrganizeEnv where
  openaiInit : Except String Unit
  categoriesConfig : Except String (List (String × CategoryConfig))
  setupResources : Except String (String × List (String × String))
  tasksForUnlabeled : Except String (List Task)
  tasksForExisting : Except String (List Task)
  deleteOk : String → Bool
  classify : Except String (List (String × List String))

/-- `organize_shopping_list` (organizer.py lines 227-343) down to its
control flow on exceptions.  OpenAI-client initialisation failure
(lines 235-243) and categories-configuration failure (lines 245-250) are
caught and the function returns; failures of `setup_todoist_resources` or
of the `get_tasks` calls propagate to the outer handler, which logs,
escalates and re-raises (lines 337-343); a failure of `categorize_items`
is caught at lines 293-299, logged, escalated, and the function RETURNS
NORMALLY; the apply loop (lines 301-333) catches every per-item failure,
so it never raises. -/
def organize_shopping_list (env : OrganizeEnv) : Except String Unit :=
  match env.openaiInit with
  | .error _ => .ok ()
  | .ok _ =>
    match env.categoriesConfig with
    | .error _ => .ok ()
    | .ok cfg =>
      match env.setupResources with
      | .error e => .error e
      | .ok _res =>
        match env.tasksForUnlabeled with
        | .error e => .error e
        | .ok tasks1 =>
          let unlabeled := tasks1.filter
            (fun t => !(optTruthy t.section_id) && !(optTruthy t.parent_id))
          if unlabeled.isEmpty then .ok ()
          else
            match env.tasksForExisting with
            | .error e => .error e
            | .ok tasks2 =>
              let dedup := dedupeLoop (get_existing_items tasks2) env.deleteOk unlabeled
              if dedup.unique.isEmpty then .ok ()
              else
                match (categorize_items env.classify cfg dedup.unique).result with
                | .error _ => .ok ()
                | .ok _categorized => .ok ()

/-- Result of one `check_and_sync` cycle: whether `state.update` and
`state.save` were called, the stored task snapshot afterwards, and the
outcome (the outer handler at sync.py lines 139-142 logs and re-raises,
so an error is visible to the caller). -/
structure CheckSyncResult where
  committed : Bool
  tasks_state : List (String × TaskSnapshot)
  outcome : Except String Unit
deriving Repr

/-- `ShoppingListSync.check_and_sync` (sync.py lines 104-142).
`getProjectId` and `getCurrent` are the oracles for the two retry-wrapped
reads; `stored` is `self.state.tasks_state`; `organizeResult` is what the
call to `organize_shopping_list` does.  `state.update` and `state.save`
run only on the success branch after a detected change (lines 122-129). -/
def check_and_sync (getProjectId : Except String (Option String))
    (getCurrent : Except String (List (String × TaskSnapshot)))
    (stored : List (String × TaskSnapshot))
    (organizeResult : Except String Unit) : CheckSyncResult :=
  match getProjectId with
  | .error e => ⟨false, stored, .error e⟩
  | .ok pid =>
    if !(optTruthy pid) then ⟨false, stored, .ok ()⟩
    else
      match getCurrent with
      | .error e => ⟨false, stored, .error e⟩
      | .ok current =>
        if has_changed stored current then
          match organizeResult with
          | .ok _ => ⟨true, current, .ok ()⟩
          | .error e => ⟨false, stored, .error e⟩
        else ⟨false, stored, .ok ()⟩

/-- A single ungrouped task used by the concrete scenarios below. -/
def appleTask : Task :=
  ⟨"1", "apple", none, none, false⟩

/-- Category configuration with a produce and a dairy category. -/
def twoCatCfg : List (String × CategoryConfig) :=
  [("produce", ⟨"pe", ["apple", "banana"]⟩), ("dairy", ⟨"de", ["milk"]⟩)]

/-- Section dictionary built from `twoCatCfg`'s keys by
`setup_todoist_resources`. -/
def twoCatSections : List (String × String) :=
  [("produce", "s1"), ("dairy", "s2")]

/-- Environment of `organize_shopping_list` in which every remote step
succeeds except the classification call, which raises. -/
def c1Env : OrganizeEnv :=
  ⟨Except.ok (), Except.ok twoCatCfg, Except.ok ("p1", twoCatSections),
    Except.ok [appleTask], Except.ok [], (fun _ => true),
    Except.error "OpenAI API error"⟩

/-- The candidate snapshot of the cycle in the C1 scenario. -/
def c1Current : List (String × TaskSnapshot) :=
  [("1", ⟨"apple", none, false⟩)]

/-- An already-grouped "apple" task. -/
def groupedApple : Task :=
  ⟨"10", "apple", some "s1", none, false⟩

/-- An ungrouped task whose normalised content duplicates `groupedApple`. -/
def dupApple : Task :=
  ⟨"2", " Apple", none, none, false⟩

/-- Claim C1 (code bug): the spec says a categorization failure ends the
cycle with no state commit, and the code's own comments at sync.py
lines 126 and 133 say the same; but `organize_shopping_list` catches the
categorization error at organizer.py lines 293-299 and returns normally,
so `check_and_sync` proceeds to `state.update` and `state.save`: the cycle
commits the new snapshot despite the categorization failure. -/
theorem c1_commit_despite_categorization_failure :
    organize_shopping_list c1Env = Except.ok ()
  ∧ (check_and_sync (Except.ok (some "p1")) (Except.ok c1Current) []
      (organize_shopping_list c1Env)).committed = true
  ∧ (check_and_sync (Except.ok (some "p1")) (Except.ok c1Current) []
      (organize_shopping_list c1Env)).tasks_state = c1Current := by
  refine ⟨rfl, rfl, rfl⟩

/-- Tenacity's driver specialised to three attempts, written out: attempt
1, then (on a retryable failure) attempt 2, then (again on a retryable
failure) attempt 3, whose outcome is final either way. -/
theorem todoistRetryCall_unfold {α : Type} (b : Nat → Except ApiError α) :
    todoistRetryCall b =
      match b 1 with
      | .ok v => .ok v
      | .error e1 =>
        if shouldRetryTodoist e1 then
          match b 2 with
          | .ok v => .ok v
          | .error e2 =>
            if shouldRetryTodoist e2 then b 3 else .error e2
        else .error e1 := by
  show retryExec shouldRetryTodoist b 1 (1 + 1) = _
  rw [retryExec]
  cases hb1 : b 1 with
  | ok v => rfl
  | error e1 =>
    cases hr1 : shouldRetryTodoist e1 with
    | false => simp [hr1]
    | true =>
      simp only [hr1, if_true]
      show retryExec shouldRetryTodoist b 2 (0 + 1) = _
      rw [retryExec]
      cases hb2 : b 2 with
      | ok v => rfl
      | error e2 =>
        cases hr2 : shouldRetryTodoist e2 with
        | false => simp [hr2]
        | true =>
          simp only [hr2, if_true]
          show retryExec shouldRetryTodoist b 3 0 = b 3
          rw [retryExec]

/-- Claim C2: a failed attempt is retried exactly when the exception is an
HTTP or connection error (never a validation or not-found error, whose
failure propagates at once); the wrapped call is evaluated on at most the
attempts 1, 2, 3; two transient failures followed by success yield the
success; three transient failures propagate the final error unchanged. -/
theorem c2_retry_policy (α : Type) :
    (∀ (b : Nat → Except ApiError α) e, shouldRetryTodoist e = false →
        b 1 = .error e → todoistRetryCall b = .error e)
  ∧ (∀ (b b' : Nat → Except ApiError α), b 1 = b' 1 → b 2 = b' 2 → b 3 = b' 3 →
        todoistRetryCall b = todoistRetryCall b')
  ∧ (∀ (b : Nat → Except ApiError α) e1 e2 v, shouldRetryTodoist e1 = true →
        shouldRetryTodoist e2 = true → b 1 = .error e1 → b 2 = .error e2 →
        b 3 = .ok v → todoistRetryCall b = .ok v)
  ∧ (∀ (b : Nat → Except ApiError α) e1 e2 e3, shouldRetryTodoist e1 = true →
        shouldRetryTodoist e2 = true → b 1 = .error e1 → b 2 = .error e2 →
        b 3 = .error e3 → todoistRetryCall b = .error e3) := by
  refine ⟨?_, ?_, ?_, ?_⟩
  · intro b e hs hb
    rw [todoistRetryCall_unfold, hb]
    simp [hs]
  · intro b b' h1 h2 h3
    rw [todoistRetryCall_unfold, todoistRetryCall_unfold, h1, h2, h3]
  · intro b e1 e2 v h1 h2 hb1 hb2 hb3
    rw [todoistRetryCall_unfold, hb1]
    simp [h1, hb2, h2, hb3]
  · intro b e1 e2 e3 h1 h2 hb1 hb2 hb3
    rw [todoistRetryCall_unfold, hb1]
    simp [h1, hb2, h2, hb3]

/-- Claim C2, witness: the three retry-budget scenarios at concrete
behaviors. -/
theorem c2_retry_policy_witness :
    todoistRetryCall (fun _ => (Except.error (ApiError.validationError "bad") : Except ApiError Nat))
        = Except.error (ApiError.validationError "bad")
  ∧ todoistRetryCall (fun i => if i < 3 then Except.error (ApiError.connectionError "refused")
        else (Except.ok 7 : Except ApiError Nat)) = Except.ok 7
  ∧ todoistRetryCall (fun _ => (Except.error (ApiError.httpError "server error") : Except ApiError Nat))
        = Except.error (ApiError.httpError "server error") :=
  ⟨(c2_retry_policy Nat).1 _ (ApiError.validationError "bad") rfl rfl,
   (c2_retry_policy Nat).2.2.1 _ (ApiError.connectionError "refused")
     (ApiError.connectionError "refused") 7 rfl rfl rfl rfl rfl,
   (c2_retry_policy Nat).2.2.2 _ (ApiError.httpError "server error")
     (ApiError.httpError "server error") (ApiError.httpError "server error")
     rfl rfl rfl rfl rfl⟩

/-- Claim C10: `categorize_items` on an empty item list returns the empty
mapping and does not call the classification service. -/
theorem c10_empty_items_no_call :
    ∀ (classify : Except String (List (String × List String)))
      (cfg : List (String × CategoryConfig)),
      categorize_items classify cfg [] = ⟨Except.ok [], false⟩ :=
  fun _ _ => rfl

/-- Claim C3, counterexample: with the response listing "apple" under both
Produce and Dairy, the single task matches both categories, appears under
both keys of the categorizer's output, and the apply phase issues two
`update_task` calls for it — the item is moved twice in one cycle. -/
theorem c3_counterexample :
    (categorize_items (Except.ok [("Produce", ["apple"]), ("Dairy", ["apple"])])
        twoCatCfg [appleTask]).result
      = Except.ok [("produce", [appleTask]), ("dairy", [appleTask])]
  ∧ applyMoves twoCatSections [("produce", [appleTask]), ("dairy", [appleTask])]
      = [("1", "s1"), ("1", "s2")]
  ∧ ¬ ((applyMoves twoCatSections
        [("produce", [appleTask]), ("dairy", [appleTask])]).map Prod.fst).Nodup := by
  refine ⟨rfl, rfl, by decide⟩

/-- Claim C7, counterexample: the response key "Other" is not in the
category-rule set, yet `categorize_items` keeps it in the returned
mapping; the key is only skipped later by the apply phase, which issues no
move for it. -/
theorem c7_counterexample :
    (categorize_items (Except.ok [("Other", ["apple"])])
        [("produce", (⟨"pe", ["apple"]⟩ : CategoryConfig))] [appleTask]).result
      = Except.ok [("other", [appleTask])]
  ∧ (([("produce", (⟨"pe", ["apple"]⟩ : CategoryConfig))] :
        List (String × CategoryConfig)).lookup "other") = none
  ∧ applyMoves [("produce", "s1")] [("other", [appleTask])] = [] :=
  ⟨rfl, rfl, rfl⟩

/-- Claim C5, counterexample: when the configured state file itself ends
in ".tmp", `with_suffix('.tmp')` yields the state file's own path, so the
pre-rename write already overwrites the previously saved state. -/
theorem c5_counterexample :
    tmpPathOf "data/sync_state.tmp" = "data/sync_state.tmp"
  ∧ (saveAfterWriteFS [("data/sync_state.tmp", "old")] "data/sync_state.tmp" "new").lookup
      "data/sync_state.tmp" = some "new" := by
  refine ⟨rfl, rfl⟩

/-- A key not among a list's keys looks up to `none`, and conversely. -/
theorem lookup_none_iff {β : Type} {l : List (String × β)} {k : String} :
    l.lookup k = none ↔ k ∉ l.map Prod.fst := by
  induction l with
  | nil => simp
  | cons p rest ih =>
    obtain ⟨a, b⟩ := p
    by_cases hk : k = a
    · subst hk
      simp [List.lookup]
    · simp [List.lookup, beq_false_of_ne hk, ih, hk]

/-- A successful lookup produces a binding of the list. -/
theorem mem_of_lookup_eq_some {β : Type} {l : List (String × β)} {k : String} {v : β}
    (h : l.lookup k = some v) : (k, v) ∈ l := by
  induction l with
  | nil => simp [List.lookup] at h
  | cons p rest ih =>
    obtain ⟨a, b⟩ := p
    by_cases hk : k = a
    · subst hk
      simp [List.lookup] at h
      simp [h]
    · rw [List.lookup, beq_false_of_ne hk] at h
      exact List.mem_cons_of_mem _ (ih h)

/-- Under distinct keys, every binding of the list is returned by lookup. -/
theorem lookup_eq_some_of_mem {β : Type} {l : List (String × β)} {k : String} {v : β}
    (hnd : (l.map Prod.fst).Nodup) (h : (k, v) ∈ l) : l.lookup k = some v := by
  induction l with
  | nil => simp at h
  | cons p rest ih =>
    obtain ⟨a, b⟩ := p
    rw [List.map_cons, List.nodup_cons] at hnd
    rcases List.mem_cons.mp h with h1 | h1
    · rw [show k = a from congrArg Prod.fst h1]
      simp [List.lookup, show b = v from (congrArg Prod.snd h1).symm]
    · have hk : k ≠ a := by
        intro he
        apply hnd.1
        show a ∈ List.map Prod.fst rest
        rw [← he]
        exact List.mem_map_of_mem Prod.fst h1
      rw [List.lookup, beq_false_of_ne hk]
      exact ih hnd.2 h1

/-- Permuting an association list with distinct keys does not change any
lookup. -/
theorem perm_lookup_eq {β : Type} {l₁ l₂ : List (String × β)} (hp : l₁.Perm l₂)
    (hnd : (l₁.map Prod.fst).Nodup) (k : String) : l₁.lookup k = l₂.lookup k := by
  have hnd₂ : (l₂.map Prod.fst).Nodup := ((hp.map Prod.fst).nodup_iff).mp hnd
  cases h1 : l₁.lookup k with
  | none =>
    have hk : k ∉ l₁.map Prod.fst := lookup_none_iff.mp h1
    have hk₂ : k ∉ l₂.map Prod.fst := fun hm => hk (((hp.map Prod.fst).mem_iff).mpr hm)
    exact (lookup_none_iff.mpr hk₂).symm
  | some v =>
    exact (lookup_eq_some_of_mem hnd₂ (hp.mem_iff.mp (mem_of_lookup_eq_some h1))).symm

/-- `pyDictEq` is agreement of the two mappings on every key. -/
theorem pyDictEq_iff {a b : List (String × TaskSnapshot)} :
    pyDictEq a b = true ↔ ∀ k, a.lookup k = b.lookup k := by
  rw [pyDictEq, Bool.and_eq_true, List.all_eq_true, List.all_eq_true]
  constructor
  · intro ⟨h1, h2⟩ k
    by_cases ha : k ∈ a.map Prod.fst
    · exact eq_of_beq (h1 k ha)
    · by_cases hb : k ∈ b.map Prod.fst
      · exact (eq_of_beq (h2 k hb)).symm
      · rw [lookup_none_iff.mpr ha, lookup_none_iff.mpr hb]
  · intro h
    exact ⟨fun k _ => beq_iff_eq.mpr (h k), fun k _ => beq_iff_eq.mpr (h k).symm⟩

/-- Claim C4: `has_changed` is a structural equality check: it returns
false exactly when the candidate and the stored mapping agree on every
key; in particular it returns false on every candidate that is a
reordering of the stored bindings, and true whenever some key's presence
or snapshot (content, section, completion flag) differs. -/
theorem c4_has_changed_structural :
    (∀ stored current, has_changed stored current = false ↔
        ∀ k, current.lookup k = stored.lookup k)
  ∧ (∀ stored current, current.Perm stored → (current.map Prod.fst).Nodup →
        has_changed stored current = false)
  ∧ (∀ stored current k, current.lookup k ≠ stored.lookup k →
        has_changed stored current = true) := by
  have hiff : ∀ stored current, has_changed stored current = false ↔
      ∀ k, current.lookup k = stored.lookup k := by
    intro stored current
    rw [has_changed, Bool.not_eq_false']
    exact pyDictEq_iff
  refine ⟨hiff, ?_, ?_⟩
  · intro stored current hperm hnd
    exact (hiff stored current).mpr (fun k => perm_lookup_eq hperm hnd k)
  · intro stored current k hne
    cases hhc : has_changed stored current with
    | false => exact absurd ((hiff stored current).mp hhc k) hne
    | true => rfl

/-- Claim C4, witness: a reordered two-task snapshot is unchanged; adding
a task is a change. -/
theorem c4_witness :
    has_changed [("1", ⟨"a", none, false⟩), ("2", ⟨"b", some "s", true⟩)]
        [("2", ⟨"b", some "s", true⟩), ("1", ⟨"a", none, false⟩)] = false
  ∧ has_changed [] [("1", (⟨"a", none, false⟩ : TaskSnapshot))] = true :=
  ⟨c4_has_changed_structural.2.1 _ _ (by decide) (by decide),
   c4_has_changed_structural.2.2 _ _ "1" (by decide)⟩

/-- Writing a binding reads back its value. -/
theorem lookup_dictInsert_self {β : Type} (k : String) (v : β) (l : List (String × β)) :
    (dictInsert k v l).lookup k = some v := by
  induction l with
  | nil => simp [dictInsert, List.lookup]
  | cons p rest ih =>
    obtain ⟨a, b⟩ := p
    by_cases h : a = k
    · subst h
      simp [dictInsert, List.lookup]
    · rw [dictInsert, if_neg h, List.lookup, beq_false_of_ne (Ne.symm h)]
      exact ih

/-- Writing one key leaves every other key's lookup unchanged. -/
theorem lookup_dictInsert_ne {β : Type} {k k' : String} (v : β) (l : List (String × β))
    (h : k ≠ k') : (dictInsert k v l).lookup k' = l.lookup k' := by
  induction l with
  | nil => simp [dictInsert, List.lookup, beq_false_of_ne (Ne.symm h)]
  | cons p rest ih =>
    obtain ⟨a, b⟩ := p
    by_cases ha : a = k
    · subst ha
      rw [dictInsert, if_pos rfl, List.lookup, List.lookup,
        beq_false_of_ne (fun he => h he.symm)]
    · rw [dictInsert, if_neg ha, List.lookup, List.lookup]
      cases hk : k' == a with
      | true => rfl
      | false => exact ih

/-- Claim C5 (amended): `save` writes the serialised state to the path
derived by `with_suffix('.tmp')` and then atomically renames it over the
target; provided that derived temporary path differs from the target
(true unless the state file's own extension is ".tmp", see the
counterexample), an interruption at any point before the rename — with
any partial content in the temporary file — leaves the previously saved
state file unchanged; a completed save installs the payload at the
target; and a write failure propagates to the caller. -/
theorem c5_atomic_save :
    ∀ (fs : List (String × String)) (statePath payload : String),
      tmpPathOf statePath ≠ statePath →
      (∀ partialContent,
          (saveAfterWriteFS fs statePath partialContent).lookup statePath = fs.lookup statePath)
      ∧ (∀ fs', save fs statePath payload true = Except.ok fs' →
          fs'.lookup statePath = some payload)
      ∧ save fs statePath payload false = Except.error "write failed" := by
  intro fs statePath payload hne
  refine ⟨?_, ?_, rfl⟩
  · intro pc
    exact lookup_dictInsert_ne pc fs hne
  · intro fs' hok
    have h1 : save fs statePath payload true
        = .ok (fsRename (tmpPathOf statePath) statePath
            (dictInsert (tmpPathOf statePath) payload fs)) := rfl
    rw [h1] at hok
    have h2 : fs' = fsRename (tmpPathOf statePath) statePath
        (dictInsert (tmpPathOf statePath) payload fs) := (Except.ok.inj hok).symm
    subst h2
    rw [fsRename, lookup_dictInsert_self]
    exact lookup_dictInsert_self _ _ _

/-- Claim C5, witness: with the default state path "data/sync_state.json"
the temporary path differs, the pre-rename write leaves the old state
readable, and a failing write surfaces the error. -/
theorem c5_witness :
    (saveAfterWriteFS [("data/sync_state.json", "old")] "data/sync_state.json" "par").lookup
        "data/sync_state.json" = some "old"
  ∧ save [("data/sync_state.json", "old")] "data/sync_state.json" "new" false
        = Except.error "write failed" :=
  ⟨((c5_atomic_save [("data/sync_state.json", "old")] "data/sync_state.json" "new"
      (by decide)).1 "par").trans rfl,
   (c5_atomic_save [("data/sync_state.json", "old")] "data/sync_state.json" "new"
      (by decide)).2.2⟩

/-- Every survivor of the duplicate filter comes from the input and is
not a duplicate of an existing grouped item. -/
theorem mem_dedupe_unique {existing : List String} {d : String → Bool} :
    ∀ {items : List Task} {x : Task}, x ∈ (dedupeLoop existing d items).unique →
      x ∈ items ∧ normalizeContent x.content ∉ existing := by
  intro items
  induction items with
  | nil =>
    intro x hx
    simp [dedupeLoop] at hx
  | cons a rest ih =>
    intro x hx
    simp only [dedupeLoop] at hx
    by_cases hm : normalizeContent a.content ∈ existing
    · rw [if_pos hm] at hx
      obtain ⟨h1, h2⟩ := ih hx
      exact ⟨List.mem_cons_of_mem _ h1, h2⟩
    · rw [if_neg hm] at hx
      rcases List.mem_cons.mp hx with h | h
      · subst h
        exact ⟨List.mem_cons_self _ _, hm⟩
      · obtain ⟨h1, h2⟩ := ih h
        exact ⟨List.mem_cons_of_mem _ h1, h2⟩

/-- Every input item that duplicates an existing grouped item has its id
passed to `delete_task`. -/
theorem dedupe_attempts_mem {existing : List String} {d : String → Bool} :
    ∀ {items : List Task} {t : Task}, t ∈ items → normalizeContent t.content ∈ existing →
      t.id ∈ (dedupeLoop existing d items).deleteAttempts := by
  intro items
  induction items with
  | nil =>
    intro t ht
    simp at ht
  | cons a rest ih =>
    intro t ht hdup
    simp only [dedupeLoop]
    by_cases hm : normalizeContent a.content ∈ existing
    · rw [if_pos hm]
      rcases List.mem_cons.mp ht with h | h
      · subst h
        exact List.mem_cons_self _ _
      · exact List.mem_cons_of_mem _ (ih h hdup)
    · rw [if_neg hm]
      rcases List.mem_cons.mp ht with h | h
      · subst h
        exact absurd hdup hm
      · exact ih h hdup

/-- The duplicate filter's surviving items and delete attempts do not
depend on whether any `delete_task` call succeeds: a deletion failure is
caught and processing continues identically. -/
theorem dedupe_oracle_independent (existing : List String) (d1 d2 : String → Bool) :
    ∀ items : List Task,
      (dedupeLoop existing d1 items).unique = (dedupeLoop existing d2 items).unique
      ∧ (dedupeLoop existing d1 items).deleteAttempts
          = (dedupeLoop existing d2 items).deleteAttempts := by
  intro items
  induction items with
  | nil => exact ⟨rfl, rfl⟩
  | cons a rest ih =>
    simp only [dedupeLoop]
    by_cases hm : normalizeContent a.content ∈ existing
    · rw [if_pos hm, if_pos hm]
      exact ⟨ih.1, by rw [ih.2]⟩
    · rw [if_neg hm, if_neg hm]
      exact ⟨by rw [ih.1], ih.2⟩

/-- The normalised content of a grouped task is in `get_existing_items`'s
output. -/
theorem mem_get_existing_items {tasks : List Task} {g : Task} (hg : g ∈ tasks)
    (hcond : (optTruthy g.section_id || optTruthy g.parent_id) = true) :
    normalizeContent g.content ∈ get_existing_items tasks := by
  rw [get_existing_items]
  exact List.mem_map_of_mem _ (List.mem_filter.mpr ⟨hg, hcond⟩)

/-- Claim C6: the deduplication loop's results are independent of the
delete-call outcomes (a failed delete is logged and does not halt the loop
or reinstate the item), and every ungrouped item whose normalised content
equals that of some already-grouped item is excluded from the set passed
to the categorizer and has its id submitted for deletion. -/
theorem c6_duplicate_suppression :
    (∀ (existing : List String) (d1 d2 : String → Bool) (items : List Task),
        (dedupeLoop existing d1 items).unique = (dedupeLoop existing d2 items).unique
      ∧ (dedupeLoop existing d1 items).deleteAttempts
          = (dedupeLoop existing d2 items).deleteAttempts)
  ∧ (∀ (tasks : List Task) (d : String → Bool) (items : List Task) (t : Task),
        t ∈ items →
        (∃ g, g ∈ tasks ∧ (optTruthy g.section_id || optTruthy g.parent_id) = true
            ∧ normalizeContent g.content = normalizeContent t.content) →
        t ∉ (dedupeLoop (get_existing_items tasks) d items).unique
        ∧ t.id ∈ (dedupeLoop (get_existing_items tasks) d items).deleteAttempts) := by
  refine ⟨fun e d1 d2 items => dedupe_oracle_independent e d1 d2 items, ?_⟩
  intro tasks d items t ht hex
  obtain ⟨g, hg, hcond, heq⟩ := hex
  have hdup : normalizeContent t.content ∈ get_existing_items tasks := by
    rw [← heq]
    exact mem_get_existing_items hg hcond
  exact ⟨fun hu => (mem_dedupe_unique hu).2 hdup, dedupe_attempts_mem ht hdup⟩

/-- Claim C6, witness: the ungrouped " Apple" duplicates the grouped
"apple" (same normalised content), is dropped from the categorizer's
input, and its id is submitted for deletion even though the delete call
fails. -/
theorem c6_witness :
    dupApple ∉ (dedupeLoop (get_existing_items [groupedApple]) (fun _ => false)
        [dupApple]).unique
  ∧ dupApple.id ∈ (dedupeLoop (get_existing_items [groupedApple]) (fun _ => false)
        [dupApple]).deleteAttempts :=
  c6_duplicate_suppression.2 [groupedApple] (fun _ => false) [dupApple] dupApple
    (by decide) ⟨groupedApple, by decide, by decide, by decide⟩

/-- A task id moved by one apply-loop iteration belongs to that
category's item list. -/
theorem applyEntry_fst_sub {sd : List (String × String)} {p : String × List Task}
    {x : String} (hx : x ∈ (applyEntry sd p).map Prod.fst) : x ∈ p.2.map Task.id := by
  rw [applyEntry] at hx
  by_cases he : p.2.isEmpty
  · rw [if_pos he] at hx
    simp at hx
  · rw [if_neg he] at hx
    cases hl : sd.lookup p.1 with
    | none =>
      rw [hl] at hx
      simp at hx
    | some sid =>
      rw [hl] at hx
      simpa [List.map_map, Function.comp] using hx

/-- One apply-loop iteration issues at most one move per task of the
category when the category's task ids are distinct. -/
theorem applyEntry_fst_nodup {sd : List (String × String)} {p : String × List Task}
    (h : (p.2.map Task.id).Nodup) : ((applyEntry sd p).map Prod.fst).Nodup := by
  rw [applyEntry]
  by_cases he : p.2.isEmpty
  · rw [if_pos he]
    simp
  · rw [if_neg he]
    cases hl : sd.lookup p.1 with
    | none => simp
    | some sid => simpa [List.map_map, Function.comp] using h

/-- A task id moved by the apply loop belongs to some category entry's
item list. -/
theorem applyMoves_fst_sub {sd : List (String × String)} :
    ∀ (l : List (String × List Task)) (x : String),
      x ∈ (applyMoves sd l).map Prod.fst → ∃ q, q ∈ l ∧ x ∈ q.2.map Task.id := by
  intro l
  induction l with
  | nil =>
    intro x hx
    simp [applyMoves] at hx
  | cons p rest ih =>
    intro x hx
    rw [show applyMoves sd (p :: rest) = applyEntry sd p ++ applyMoves sd rest from rfl,
      List.map_append, List.mem_append] at hx
    rcases hx with hx | hx
    · exact ⟨p, List.mem_cons_self _ _, applyEntry_fst_sub hx⟩
    · obtain ⟨q, hq, hxq⟩ := ih x hx
      exact ⟨q, List.mem_cons_of_mem _ hq, hxq⟩

/-- Claim C3 (amended): within one cycle the apply phase issues at most
one move per item per category entry; whenever the categorized mapping
assigns each item to at most one entry (the entries' task-id lists are
pairwise disjoint and duplicate-free — which fails when one response name
substring-matches an item under two categories, see the counterexample),
no item is moved more than once. -/
theorem c3_no_double_move_when_disjoint :
    ∀ (sectionDict : List (String × String)) (categorized : List (String × List Task)),
      (∀ p ∈ categorized, (p.2.map Task.id).Nodup) →
      categorized.Pairwise (fun p q => ∀ i, i ∈ p.2.map Task.id → i ∉ q.2.map Task.id) →
      ((applyMoves sectionDict categorized).map Prod.fst).Nodup := by
  intro sd l
  induction l with
  | nil =>
    intro _ _
    simp [applyMoves]
  | cons p rest ih =>
    intro hnd hpw
    rw [List.pairwise_cons] at hpw
    obtain ⟨hpr, hrest⟩ := hpw
    rw [show applyMoves sd (p :: rest) = applyEntry sd p ++ applyMoves sd rest from rfl,
      List.map_append, List.nodup_append]
    refine ⟨applyEntry_fst_nodup (hnd p (List.mem_cons_self _ _)),
      ih (fun q hq => hnd q (List.mem_cons_of_mem _ hq)) hrest, ?_⟩
    intro a ha hb
    obtain ⟨q, hq, haq⟩ := applyMoves_fst_sub rest a hb
    exact (hpr q hq a (applyEntry_fst_sub ha)) haq

/-- Claim C3, witness: with "apple" and "milk" each assigned to exactly
one category, every item is moved at most once. -/
theorem c3_witness :
    ((applyMoves twoCatSections
        [("produce", [appleTask]), ("dairy", [⟨"2", "milk", none, none, false⟩])]).map
          Prod.fst).Nodup :=
  c3_no_double_move_when_disjoint twoCatSections
    [("produce", [appleTask]), ("dairy", [⟨"2", "milk", none, none, false⟩])]
    (by decide) (by decide)

/-- Claim C7 (amended): a response key whose canonical form is not in the
section dictionary (built from the category-rule keys) is kept in the
categorizer's output mapping, but the apply phase skips it and issues no
move for it, so its items stay ungrouped: restricting the categorized
mapping to the keys that have a section changes nothing. -/
theorem c7_unknown_keys_no_moves :
    ∀ (sectionDict : List (String × String)) (categorized : List (String × List Task)),
      applyMoves sectionDict
          (categorized.filter (fun p => (sectionDict.lookup p.1).isSome))
        = applyMoves sectionDict categorized := by
  intro sd l
  induction l with
  | nil => rfl
  | cons p rest ih =>
    by_cases h : (sd.lookup p.1).isSome
    · rw [show (p :: rest).filter (fun q => (sd.lookup q.1).isSome)
          = p :: rest.filter (fun q => (sd.lookup q.1).isSome) from by
        simp [List.filter_cons, h]]
      show applyEntry sd p ++ applyMoves sd (rest.filter _) = applyEntry sd p ++ applyMoves sd rest
      rw [ih]
    · have hnone : sd.lookup p.1 = none := by
        cases ho : sd.lookup p.1 with
        | none => rfl
        | some v =>
          rw [ho] at h
          exact absurd rfl h
      have hfalse : (sd.lookup p.1).isSome = false := by
        rw [hnone]
        rfl
      rw [show (p :: rest).filter (fun q => (sd.lookup q.1).isSome)
          = rest.filter (fun q => (sd.lookup q.1).isSome) from by
        simp [List.filter_cons, hfalse]]
      have he : applyEntry sd p = [] := by
        by_cases hq : p.2.isEmpty
        · rw [applyEntry, if_pos hq]
        · rw [applyEntry, if_neg hq, hnone]
      rw [ih]
      show applyMoves sd rest = applyEntry sd p ++ applyMoves sd rest
      rw [he, List.nil_append]

/-- Claim C9: `create_error_task` never propagates an exception (every
remote failure is caught and logged, so for every environment it returns
`.ok` with the calls it made), and it performs a remote call only when the
error-handling mode is 'task' or 'both' AND the administrative project id
is configured — otherwise it returns with no remote call. -/
theorem c9_create_error_task_total :
    ∀ (env : ErrorTaskEnv) (msg : String),
      ∃ calls, create_error_task env msg = Except.ok calls
        ∧ (calls = []
           ∨ ((env.errorHandlingMode = "task" ∨ env.errorHandlingMode = "both")
              ∧ optTruthy env.systemProjectId = true)) := by
  intro env msg
  cases hA : (env.errorHandlingMode == "task" || env.errorHandlingMode == "both") with
  | false =>
    refine ⟨[], ?_, Or.inl rfl⟩
    simp [create_error_task, hA]
  | true =>
    have hmode : env.errorHandlingMode = "task" ∨ env.errorHandlingMode = "both" := by
      simpa using hA
    cases hB : optTruthy env.systemProjectId with
    | false =>
      refine ⟨[], ?_, Or.inl rfl⟩
      simp [create_error_task, hA, hB]
    | true =>
      cases hg : env.getTasksResult with
      | error e =>
        refine ⟨[.getTasks (env.systemProjectId.getD "")], ?_, Or.inr ⟨hmode, rfl⟩⟩
        simp [create_error_task, hA, hB, hg]
      | ok tasks =>
        cases hf : tasks.find? (fun t =>
            substrExact "Shopping List Sync Error" t.content && !t.is_completed) with
        | some t =>
          refine ⟨[.getTasks (env.systemProjectId.getD "")], ?_, Or.inr ⟨hmode, rfl⟩⟩
          simp [create_error_task, hA, hB, hg, hf]
        | none =>
          refine ⟨[.getTasks (env.systemProjectId.getD ""),
            .addTask (errorTaskContent env.now msg) (env.systemProjectId.getD "") none],
            ?_, Or.inr ⟨hmode, rfl⟩⟩
          cases ha : env.addTaskResult with
          | error e => simp [create_error_task, hA, hB, hg, hf, ha]
          | ok u => simp [create_error_task, hA, hB, hg, hf, ha]

end ShoppingListSync
